/-
Verification of the Hypao image-compositing pipeline
(src/backend/compose.py and src/pfp-sticker/backend/compose.py).

The pipeline manipulates 8-bit RGBA images through the Pillow library.
We embed the two compose modules shallowly:

* an `Image` is a width, a height and a pixel map; a `Mask` is a
  single-channel (alpha) plane, as produced by `img.split()[-1]`;
* `ImageOps.expand(mask, border=b, fill=255)` grows the canvas by `b`
  on every side, filling the border with the given value;
* `Image.alpha_composite(dst, src)` uses the exact Pillow integer
  formula (PRECISION_BITS = 7, SHIFTFORDIV255); the in-place method
  `dst.alpha_composite(src, (dx, dy))` crops the destination to the
  paste box (padding past the right/bottom edge), composites, and
  pastes back, which silently drops source pixels that fall outside
  the destination canvas; it raises ValueError when a destination
  coordinate is negative ("Destination must be non-negative");
* the Gaussian blur and the LANCZOS resampler are external Pillow
  kernels whose pixel values the repository does not define; they are
  taken as function parameters, constrained only by the properties the
  claims use (they preserve the canvas dimensions);
* the rembg segmentation call is an external oracle, also a parameter;
* Python float arithmetic on the fractional inputs (`scale`, anchor
  fractions, `xy_pct`) is modelled as exact rational arithmetic, and
  the Python `int()` truncation toward zero is `pyInt`.

Fallible code (`place_on_base` can raise ZeroDivisionError from
`target_w / sticker.width` and ValueError from Pillow) returns
`Except PlaceError Image`.
-/
import Mathlib

set_option maxRecDepth 4000

/-- One 8-bit RGBA pixel (channels kept as `Nat`, values 0..255). -/
structure RGBA where
  r : Nat
  g : Nat
  b : Nat
  a : Nat
deriving DecidableEq

/-- An RGBA image: canvas dimensions plus a pixel map.  Only the values
`px x y` with `x < width`, `y < height` are meaningful. -/
structure Image where
  width : Nat
  height : Nat
  px : Nat → Nat → RGBA

/-- A single-channel 8-bit plane, as returned by `img.split()[-1]`. -/
structure Mask where
  width : Nat
  height : Nat
  px : Nat → Nat → Nat

/-- A constant-colour canvas: `Image.new("RGBA", (w, h), c)`. -/
def Image.new (w h : Nat) (c : RGBA) : Image :=
  ⟨w, h, fun _ _ => c⟩

/-- The alpha plane of an image: `img.split()[-1]`. -/
def Image.alphaChannel (im : Image) : Mask :=
  ⟨im.width, im.height, fun x y => (im.px x y).a⟩

/-- Replace the alpha band, keeping the colour bands: `img.putalpha(mask)`. -/
def Image.putalpha (im : Image) (m : Mask) : Image :=
  ⟨im.width, im.height, fun x y =>
    ⟨(im.px x y).r, (im.px x y).g, (im.px x y).b, m.px x y⟩⟩

/-- Model of `ImageOps.expand(mask, border=b, fill)`: the canvas grows by `b` on
every side; interior pixels shift by `(b, b)`, the border is `fill`. -/
def Mask.expand (m : Mask) (b : Nat) (fill : Nat) : Mask :=
  ⟨m.width + 2 * b, m.height + 2 * b, fun x y =>
    if b ≤ x ∧ x < b + m.width ∧ b ≤ y ∧ y < b + m.height then
      m.px (x - b) (y - b)
    else fill⟩

/-- The Pillow macro `SHIFTFORDIV255(a) = ((a >> 8) + a) >> 8` on non-negative
integers. -/
def shiftForDiv255 (x : Nat) : Nat :=
  (x / 256 + x) / 256

/-- One pixel of the Pillow `alpha_composite` (AlphaComposite.c, with
PRECISION_BITS = 7): `src` over `dst`. -/
def compositePixel (dst src : RGBA) : RGBA :=
  if src.a = 0 then dst
  else
    let blend := dst.a * (255 - src.a)
    let outa255 := src.a * 255 + blend
    let coef1 := src.a * 255 * 255 * 128 / outa255
    let coef2 := 255 * 128 - coef1
    ⟨shiftForDiv255 (src.r * coef1 + dst.r * coef2 + 16384) / 128,
     shiftForDiv255 (src.g * coef1 + dst.g * coef2 + 16384) / 128,
     shiftForDiv255 (src.b * coef1 + dst.b * coef2 + 16384) / 128,
     shiftForDiv255 (outa255 + 128)⟩

/-- The in-place method `dst.alpha_composite(src, (dx, dy))` with a
non-negative destination: pixels of `dst` inside the paste box are
blended with the corresponding `src` pixel, pixels outside the box
are untouched, and the canvas keeps the dimensions of `dst` — source pixels
whose target falls past the right or bottom edge are silently dropped
(Pillow crops the box region, composites, and pastes back, and `paste`
clips at the canvas edge). -/
def Image.alphaCompositeNN (dst src : Image) (dx dy : Nat) : Image :=
  ⟨dst.width, dst.height, fun x y =>
    if dx ≤ x ∧ x < dx + src.width ∧ dy ≤ y ∧ y < dy + src.height then
      compositePixel (dst.px x y) (src.px (x - dx) (y - dy))
    else dst.px x y⟩

/-- Python `int()` applied to a (modelled-as-rational) float: truncation
toward zero. -/
def pyInt (q : ℚ) : Int :=
  if 0 ≤ q then ⌊q⌋ else -⌊-q⌋

/-- The exceptions `place_on_base` can raise: `ZeroDivisionError` from
`target_w / sticker.width`, and the Pillow `ValueError` (resize target
below 1, or negative alpha_composite destination). -/
inductive PlaceError where
  | zeroDivision : PlaceError
  | valueError : PlaceError
deriving DecidableEq

namespace Backend

/-- The `has_transparency` check of src/backend/compose.py: true iff some alpha
value is below 255 (`any(px < 255 for px in alpha.getdata())`). -/
def has_transparency (im : Image) : Bool :=
  (List.range im.height).any fun y =>
    (List.range im.width).any fun x => (im.px x y).a < 255

/-- The cleanup loop of `remove_bg`: any pixel with alpha below 30 is
forced fully transparent, colour channels kept; others are unchanged. -/
def cleanup (im : Image) : Image :=
  ⟨im.width, im.height, fun x y =>
    if (im.px x y).a < 30 then
      ⟨(im.px x y).r, (im.px x y).g, (im.px x y).b, 0⟩
    else im.px x y⟩

/-- The strict `remove_bg` of src/backend/compose.py.  `seg` is the external rembg
call (with the tuned matting parameters); the input is already RGBA in
this model, so the mode conversion is the identity. -/
def remove_bg (seg : Image → Image) (im : Image) : Image :=
  if has_transparency im then im
  else cleanup (seg im)

/-- The blurred stroke mask: `ImageOps.expand(alpha, border=stroke_px,
fill=255)` followed by `GaussianBlur(1)`.  `blur r m` stands for
the Pillow call `m.filter(ImageFilter.GaussianBlur(r))`. -/
def strokeMask (blur : Nat → Mask → Mask) (im : Image) (stroke_px : Nat) : Mask :=
  blur 1 ((Image.alphaChannel im).expand stroke_px 255)

/-- The white stroke layer: a solid-white canvas sized like the stroke mask, carrying the stroke mask as alpha. -/
def strokeLayer (blur : Nat → Mask → Mask) (im : Image) (stroke_px : Nat) : Image :=
  (Image.new (strokeMask blur im stroke_px).width
    (strokeMask blur im stroke_px).height ⟨255, 255, 255, 0⟩).putalpha
    (strokeMask blur im stroke_px)

/-- The shadow mask: expansion by `2 * stroke_px`, then `GaussianBlur(4)`. -/
def shadowMask (blur : Nat → Mask → Mask) (im : Image) (stroke_px : Nat) : Mask :=
  blur 4 ((Image.alphaChannel im).expand (stroke_px * 2) 255)

/-- The shadow layer: a black canvas sized like the shadow mask, carrying
the shadow mask as alpha. -/
def shadowLayer (blur : Nat → Mask → Mask) (im : Image) (stroke_px : Nat) : Image :=
  (Image.new (shadowMask blur im stroke_px).width
    (shadowMask blur im stroke_px).height ⟨0, 0, 0, 0⟩).putalpha
    (shadowMask blur im stroke_px)

/-- The canvas of `add_outline_and_shadow` just before the original
cutout is pasted: a transparent canvas sized like the *stroke* layer
(`Image.new("RGBA", stroke.size, (0,0,0,0))`), optionally composited
with the (larger, hence clipped) shadow layer at (0,0), then with the
stroke layer at (0,0). -/
def underlay (blur : Nat → Mask → Mask) (im : Image) (stroke_px : Nat)
    (add_shadow : Bool) : Image :=
  let canvas := Image.new (strokeLayer blur im stroke_px).width
    (strokeLayer blur im stroke_px).height ⟨0, 0, 0, 0⟩
  let canvas :=
    if add_shadow then canvas.alphaCompositeNN (shadowLayer blur im stroke_px) 0 0
    else canvas
  canvas.alphaCompositeNN (strokeLayer blur im stroke_px) 0 0

/-- The `add_outline_and_shadow` of src/backend/compose.py.  The cutout is
pasted at `((stroke_img.width - im.width) // 2,
(stroke_img.height - im.height) // 2)`. -/
def add_outline_and_shadow (blur : Nat → Mask → Mask) (im : Image)
    (stroke_px : Nat) (add_shadow : Bool) : Image :=
  let cx := ((strokeLayer blur im stroke_px).width - im.width) / 2
  let cy := ((strokeLayer blur im stroke_px).height - im.height) / 2
  (underlay blur im stroke_px add_shadow).alphaCompositeNN im cx cy

/-- The target width `target_w = int(W * scale)` of `place_on_base`. -/
def targetWidthI (W : Nat) (scale : ℚ) : Int :=
  pyInt ((W : ℚ) * scale)

/-- The target height `int(sticker.height * ratio)` of `place_on_base`, with
`ratio = target_w / sticker.width` (true division). -/
def targetHeightI (stW stH : Nat) (tw : Int) : Int :=
  pyInt ((stH : ℚ) * ((tw : ℚ) / (stW : ℚ)))

/-- The resized sticker: `sticker.resize((target_w, int(sticker.height
* ratio)), Image.LANCZOS)`.  `resample` stands for the Pillow resizer. -/
def placedSticker (resample : Image → Nat → Nat → Image) (sticker : Image)
    (W : Nat) (scale : ℚ) : Image :=
  resample sticker (targetWidthI W scale).toNat
    (targetHeightI sticker.width sticker.height (targetWidthI W scale)).toNat

/-- One entry of the anchors dict: top-left = centre point minus half
the size of the resized sticker. -/
def anchorXY (W H stW stH : Nat) (fx fy : ℚ) : Int × Int :=
  (pyInt ((W : ℚ) * fx) - (stW / 2 : Nat), pyInt ((H : ℚ) * fy) - (stH / 2 : Nat))

/-- The fixed anchors dict of `place_on_base` (fractional centre points
relative to the base size). -/
def anchors (W H stW stH : Nat) : List (String × Int × Int) :=
  [("left_shoulder", anchorXY W H stW stH (33 / 100) (62 / 100)),
   ("right_shoulder", anchorXY W H stW stH (67 / 100) (62 / 100)),
   ("chest", anchorXY W H stW stH (50 / 100) (70 / 100)),
   ("lower_left", anchorXY W H stW stH (25 / 100) (78 / 100)),
   ("lower_right", anchorXY W H stW stH (75 / 100) (78 / 100))]

/-- The paste coordinates of `place_on_base`: the `xy_pct` override if
given, else `anchors.get(anchor, anchors["left_shoulder"])`. -/
def pasteXY (W H stW stH : Nat) (anchor : String)
    (xy_pct : Option (ℚ × ℚ)) : Int × Int :=
  match xy_pct with
  | some (xp, yp) =>
      (pyInt ((W : ℚ) * xp) - (stW / 2 : Nat), pyInt ((H : ℚ) * yp) - (stH / 2 : Nat))
  | none =>
      match (anchors W H stW stH).lookup anchor with
      | some p => p
      | none => anchorXY W H stW stH (33 / 100) (62 / 100)

/-- The `place_on_base` of src/backend/compose.py.  `resample` stands for
the Pillow LANCZOS resizer.  Failure points, in source order:
`ratio = target_w / sticker.width` raises ZeroDivisionError when the
sticker has zero width; `resize` raises ValueError ("height and width
must be > 0") whenever a target dimension is below 1; `out.alpha_composite(sticker, (x, y))` raises ValueError when a
paste coordinate is negative.  `out = base.convert("RGBA").copy()` is
the identity here (the model is RGBA and pure). -/
def place_on_base (resample : Image → Nat → Nat → Image) (base sticker : Image)
    (scale : ℚ) (anchor : String) (xy_pct : Option (ℚ × ℚ)) :
    Except PlaceError Image :=
  let W := base.width
  let H := base.height
  let target_w := targetWidthI W scale
  if sticker.width = 0 then .error .zeroDivision
  else
    let target_h := targetHeightI sticker.width sticker.height target_w
    if target_w < 1 ∨ target_h < 1 then .error .valueError
    else
      let st := resample sticker target_w.toNat target_h.toNat
      let xy := pasteXY W H st.width st.height anchor xy_pct
      if xy.1 < 0 ∨ xy.2 < 0 then .error .valueError
      else .ok (base.alphaCompositeNN st xy.1.toNat xy.2.toNat)

end Backend

namespace PfpSticker

/-- The `remove_bg` of src/pfp-sticker/backend/compose.py: a bare
pass-through to rembg, with no transparency short-circuit and no
cleanup pass (`return remove(img.convert("RGBA"))`). -/
def remove_bg (seg : Image → Image) (im : Image) : Image :=
  seg im

/-- The blurred stroke mask of the pfp-sticker variant (same text as the
backend variant). -/
def strokeMask (blur : Nat → Mask → Mask) (im : Image) (stroke_px : Nat) : Mask :=
  blur 1 ((Image.alphaChannel im).expand stroke_px 255)

/-- The white stroke layer of the pfp-sticker variant. -/
def strokeLayer (blur : Nat → Mask → Mask) (im : Image) (stroke_px : Nat) : Image :=
  (Image.new (strokeMask blur im stroke_px).width
    (strokeMask blur im stroke_px).height ⟨255, 255, 255, 0⟩).putalpha
    (strokeMask blur im stroke_px)

/-- The shadow mask of the pfp-sticker variant. -/
def shadowMask (blur : Nat → Mask → Mask) (im : Image) (stroke_px : Nat) : Mask :=
  blur 4 ((Image.alphaChannel im).expand (stroke_px * 2) 255)

/-- The shadow layer of the pfp-sticker variant. -/
def shadowLayer (blur : Nat → Mask → Mask) (im : Image) (stroke_px : Nat) : Image :=
  (Image.new (shadowMask blur im stroke_px).width
    (shadowMask blur im stroke_px).height ⟨0, 0, 0, 0⟩).putalpha
    (shadowMask blur im stroke_px)

/-- The pre-paste canvas of the pfp-sticker variant. -/
def underlay (blur : Nat → Mask → Mask) (im : Image) (stroke_px : Nat)
    (add_shadow : Bool) : Image :=
  let canvas := Image.new (strokeLayer blur im stroke_px).width
    (strokeLayer blur im stroke_px).height ⟨0, 0, 0, 0⟩
  let canvas :=
    if add_shadow then canvas.alphaCompositeNN (shadowLayer blur im stroke_px) 0 0
    else canvas
  canvas.alphaCompositeNN (strokeLayer blur im stroke_px) 0 0

/-- The `add_outline_and_shadow` of src/pfp-sticker/backend/compose.py
(differs from the backend variant only in whitespace). -/
def add_outline_and_shadow (blur : Nat → Mask → Mask) (im : Image)
    (stroke_px : Nat) (add_shadow : Bool) : Image :=
  let cx := ((strokeLayer blur im stroke_px).width - im.width) / 2
  let cy := ((strokeLayer blur im stroke_px).height - im.height) / 2
  (underlay blur im stroke_px add_shadow).alphaCompositeNN im cx cy

/-- The target width `target_w = int(W * scale)` of the pfp-sticker variant. -/
def targetWidthI (W : Nat) (scale : ℚ) : Int :=
  pyInt ((W : ℚ) * scale)

/-- The target height `int(sticker.height * ratio)` of the pfp-sticker variant. -/
def targetHeightI (stW stH : Nat) (tw : Int) : Int :=
  pyInt ((stH : ℚ) * ((tw : ℚ) / (stW : ℚ)))

/-- One anchors-dict entry of the pfp-sticker variant. -/
def anchorXY (W H stW stH : Nat) (fx fy : ℚ) : Int × Int :=
  (pyInt ((W : ℚ) * fx) - (stW / 2 : Nat), pyInt ((H : ℚ) * fy) - (stH / 2 : Nat))

/-- The anchors dict of the pfp-sticker variant. -/
def anchors (W H stW stH : Nat) : List (String × Int × Int) :=
  [("left_shoulder", anchorXY W H stW stH (33 / 100) (62 / 100)),
   ("right_shoulder", anchorXY W H stW stH (67 / 100) (62 / 100)),
   ("chest", anchorXY W H stW stH (50 / 100) (70 / 100)),
   ("lower_left", anchorXY W H stW stH (25 / 100) (78 / 100)),
   ("lower_right", anchorXY W H stW stH (75 / 100) (78 / 100))]

/-- The paste coordinates of the pfp-sticker variant. -/
def pasteXY (W H stW stH : Nat) (anchor : String)
    (xy_pct : Option (ℚ × ℚ)) : Int × Int :=
  match xy_pct with
  | some (xp, yp) =>
      (pyInt ((W : ℚ) * xp) - (stW / 2 : Nat), pyInt ((H : ℚ) * yp) - (stH / 2 : Nat))
  | none =>
      match (anchors W H stW stH).lookup anchor with
      | some p => p
      | none => anchorXY W H stW stH (33 / 100) (62 / 100)

/-- The `place_on_base` of src/pfp-sticker/backend/compose.py (differs from
the backend variant only in whitespace). -/
def place_on_base (resample : Image → Nat → Nat → Image) (base sticker : Image)
    (scale : ℚ) (anchor : String) (xy_pct : Option (ℚ × ℚ)) :
    Except PlaceError Image :=
  let W := base.width
  let H := base.height
  let target_w := targetWidthI W scale
  if sticker.width = 0 then .error .zeroDivision
  else
    let target_h := targetHeightI sticker.width sticker.height target_w
    if target_w < 1 ∨ target_h < 1 then .error .valueError
    else
      let st := resample sticker target_w.toNat target_h.toNat
      let xy := pasteXY W H st.width st.height anchor xy_pct
      if xy.1 < 0 ∨ xy.2 < 0 then .error .valueError
      else .ok (base.alphaCompositeNN st xy.1.toNat xy.2.toNat)

end PfpSticker

/-! Concrete instances of the external-kernel parameters, used to
evaluate the model on concrete inputs.  The identity blur satisfies the
dimension-preservation contract of a Pillow Gaussian blur (and agrees
with it on constant masks, since the Pillow kernel is normalised and
extends edge pixels); the sampling resizer satisfies the contract that
`resize` returns an image of exactly the requested size. -/

/-- A blur instance: the identity on masks. -/
def blurId : Nat → Mask → Mask := fun _ m => m

/-- A resizer instance: point sampling to the requested dimensions. -/
def resampleNN (im : Image) (w h : Nat) : Image :=
  ⟨w, h, fun x y => im.px (x * im.width / w) (y * im.height / h)⟩

/-- A segmentation-oracle instance: keep the colours, set alpha from a
fixed rule (alpha 10 on the left column, 200 elsewhere). -/
def segSample (im : Image) : Image :=
  ⟨im.width, im.height, fun x y =>
    ⟨(im.px x y).r, (im.px x y).g, (im.px x y).b, if x = 0 then 10 else 200⟩⟩

/-! Concrete inputs used by witnesses and counterexamples. -/

/-- A 1-by-1 cutout with one half-transparent red pixel. -/
def imHalf1 : Image := ⟨1, 1, fun _ _ => ⟨200, 0, 0, 128⟩⟩

/-- A 2-by-2 fully opaque red cutout. -/
def imOpaque2 : Image := Image.new 2 2 ⟨200, 0, 0, 255⟩

/-- A 1-by-1 fully opaque cutout. -/
def imOpaque1 : Image := Image.new 1 1 ⟨10, 20, 30, 255⟩

/-- A 100-by-100 opaque white base. -/
def base100 : Image := Image.new 100 100 ⟨255, 255, 255, 255⟩

/-- A 10-by-10 opaque white base. -/
def base10 : Image := Image.new 10 10 ⟨255, 255, 255, 255⟩

/-- A 40-by-40 opaque sticker. -/
def sticker40 : Image := Image.new 40 40 ⟨10, 20, 30, 255⟩

/-- A 4-by-4 opaque sticker. -/
def sticker4 : Image := Image.new 4 4 ⟨10, 20, 30, 255⟩

/-- A zero-width sticker (degenerate geometry). -/
def sticker0w : Image := Image.new 0 5 ⟨0, 0, 0, 0⟩

/-- A wide flat sticker (40 by 1): shrinking it truncates the target
height to 0. -/
def sticker40x1 : Image := Image.new 40 1 ⟨10, 20, 30, 255⟩

/-! Dimension lemmas for the primitives. -/

@[simp] lemma Image.new_width (w h : Nat) (c : RGBA) : (Image.new w h c).width = w := rfl

@[simp] lemma Image.new_height (w h : Nat) (c : RGBA) : (Image.new w h c).height = h := rfl

@[simp] lemma Image.putalpha_width (im : Image) (m : Mask) : (im.putalpha m).width = im.width := rfl

@[simp] lemma Image.putalpha_height (im : Image) (m : Mask) : (im.putalpha m).height = im.height := rfl

@[simp] lemma Image.alphaChannel_width (im : Image) : im.alphaChannel.width = im.width := rfl

@[simp] lemma Image.alphaChannel_height (im : Image) : im.alphaChannel.height = im.height := rfl

@[simp] lemma Mask.expand_width (m : Mask) (b fill : Nat) :
    (m.expand b fill).width = m.width + 2 * b := rfl

@[simp] lemma Mask.expand_height (m : Mask) (b fill : Nat) :
    (m.expand b fill).height = m.height + 2 * b := rfl

@[simp] lemma resampleNN_width (im : Image) (w h : Nat) : (resampleNN im w h).width = w := rfl

@[simp] lemma resampleNN_height (im : Image) (w h : Nat) : (resampleNN im w h).height = h := rfl

@[simp] lemma Image.alphaCompositeNN_width (dst src : Image) (dx dy : Nat) :
    (dst.alphaCompositeNN src dx dy).width = dst.width := rfl

@[simp] lemma Image.alphaCompositeNN_height (dst src : Image) (dx dy : Nat) :
    (dst.alphaCompositeNN src dx dy).height = dst.height := rfl

/-- A pixel of the composite outside the paste box is the destination
pixel, untouched. -/
lemma Image.alphaCompositeNN_px_outside (dst src : Image) (dx dy x y : Nat)
    (h : ¬(dx ≤ x ∧ x < dx + src.width ∧ dy ≤ y ∧ y < dy + src.height)) :
    (dst.alphaCompositeNN src dx dy).px x y = dst.px x y := by
  simp only [Image.alphaCompositeNN, if_neg h]

/-- A pixel of the composite inside the paste box is the blend of the
two corresponding pixels. -/
lemma Image.alphaCompositeNN_px_inside (dst src : Image) (dx dy x y : Nat)
    (h : dx ≤ x ∧ x < dx + src.width ∧ dy ≤ y ∧ y < dy + src.height) :
    (dst.alphaCompositeNN src dx dy).px x y
      = compositePixel (dst.px x y) (src.px (x - dx) (y - dy)) := by
  simp only [Image.alphaCompositeNN, if_pos h]

/-- Evaluating `pyInt` on a non-negative value gives the floor. -/
lemma pyInt_of_nonneg {q : ℚ} (h : 0 ≤ q) : pyInt q = ⌊q⌋ := if_pos h

/-- Bracketing rule to evaluate `pyInt` on concrete non-negative
rationals. -/
lemma pyInt_eq_of {q : ℚ} {n : ℤ} (h0 : 0 ≤ q) (h1 : (n : ℚ) ≤ q)
    (h2 : q < n + 1) : pyInt q = n := by
  rw [pyInt_of_nonneg h0]
  exact Int.floor_eq_iff.mpr ⟨h1, h2⟩

/-- Blending a fully opaque source pixel over anything returns the
source pixel (the Pillow integer formula is exact there): the mixing
coefficient degenerates to `coef1 = 32640`, `coef2 = 0`. -/
lemma shiftMix_all : ∀ s : Nat, s < 256 →
    shiftForDiv255 (s * 32640 + 16384) / 128 = s := by decide

lemma compositePixel_opaque (d : RGBA) (r g b : Nat)
    (hr : r < 256) (hg : g < 256) (hb : b < 256) :
    compositePixel d ⟨r, g, b, 255⟩ = ⟨r, g, b, 255⟩ := by
  show (if (255 : Nat) = 0 then d else _) = _
  rw [if_neg (by decide)]
  have hz : d.a * (255 - 255) = 0 := by simp
  simp only [hz, Nat.add_zero]
  have hc : (255 : Nat) * 255 * 255 * 128 / (255 * 255) = 32640 := by norm_num
  have hc2 : (255 : Nat) * 128 - 32640 = 0 := by norm_num
  simp only [hc, hc2, Nat.mul_zero, Nat.add_zero]
  have ha : shiftForDiv255 (255 * 255 + 128) = 255 := by norm_num [shiftForDiv255]
  rw [RGBA.mk.injEq]
  exact ⟨shiftMix_all r hr, shiftMix_all g hg, shiftMix_all b hb, ha⟩

/-- C4: if the (RGBA) input already has a pixel with alpha below 255,
the strict `remove_bg` returns its input unchanged; the result does not
depend on the segmentation oracle and no cleanup is applied. -/
theorem claim4_short_circuit (seg : Image → Image) (im : Image)
    (h : Backend.has_transparency im = true) :
    Backend.remove_bg seg im = im := by
  simp [Backend.remove_bg, h]

theorem claim4_short_circuit_witness :
    Backend.has_transparency imHalf1 = true ∧
    Backend.remove_bg segSample imHalf1 = imHalf1 :=
  ⟨by decide, claim4_short_circuit segSample imHalf1 (by decide)⟩

/-- C5: on the segmentation path (no transparency yet), `remove_bg`
returns the cleaned segmentation output: every pixel with alpha below
30 is forced to alpha 0 with its colour channels preserved, every other
pixel is unchanged, and no alpha value ever increases. -/
theorem claim5_cleanup_monotone (seg : Image → Image) (im : Image)
    (h : Backend.has_transparency im = false) :
    Backend.remove_bg seg im = Backend.cleanup (seg im) ∧
    ∀ x y : Nat,
      (((seg im).px x y).a < 30 →
        (Backend.remove_bg seg im).px x y
          = ⟨((seg im).px x y).r, ((seg im).px x y).g, ((seg im).px x y).b, 0⟩) ∧
      (¬ ((seg im).px x y).a < 30 →
        (Backend.remove_bg seg im).px x y = (seg im).px x y) ∧
      ((Backend.remove_bg seg im).px x y).a ≤ ((seg im).px x y).a := by
  have he : Backend.remove_bg seg im = Backend.cleanup (seg im) := by
    simp [Backend.remove_bg, h]
  refine ⟨he, fun x y => ?_⟩
  rw [he]
  by_cases hc : ((seg im).px x y).a < 30
  · exact ⟨fun _ => by simp [Backend.cleanup, hc], fun hn => absurd hc hn,
      by simp [Backend.cleanup, hc]⟩
  · exact ⟨fun hcc => absurd hcc hc, fun _ => by simp [Backend.cleanup, hc],
      by simp [Backend.cleanup, hc]⟩

theorem claim5_cleanup_monotone_witness :
    Backend.has_transparency imOpaque1 = false ∧
    (Backend.remove_bg segSample imOpaque1).px 0 0 = ⟨10, 20, 30, 0⟩ :=
  ⟨by decide, by
    have h := (claim5_cleanup_monotone segSample imOpaque1 (by decide)).2 0 0
    exact (h.1 (by decide)).trans (by decide)⟩

/-- C3 (code bug evidence): `place_on_base` performs no degenerate-
geometry check; a zero-width sticker reaches the aspect-ratio division
`ratio = target_w / sticker.width` and the call dies with
ZeroDivisionError instead of the detected-and-reported error the spec
requires. -/
theorem claim3_zero_width_division :
    Backend.place_on_base resampleNN base100 sticker0w (1 / 4) "chest" none
      = .error .zeroDivision := rfl

/-- C8: an anchor keyword outside the fixed table, with no `xy_pct`
override, yields exactly the paste coordinates and the output of
`left_shoulder`, for every base and sticker. -/
theorem claim8_unknown_anchor (resample : Image → Nat → Nat → Image)
    (base sticker : Image) (scale : ℚ) (anchor : String)
    (h1 : anchor ≠ "left_shoulder") (h2 : anchor ≠ "right_shoulder")
    (h3 : anchor ≠ "chest") (h4 : anchor ≠ "lower_left")
    (h5 : anchor ≠ "lower_right") :
    (∀ W H stW stH : Nat,
      Backend.pasteXY W H stW stH anchor none
        = Backend.pasteXY W H stW stH "left_shoulder" none) ∧
    Backend.place_on_base resample base sticker scale anchor none
      = Backend.place_on_base resample base sticker scale "left_shoulder" none := by
  have b1 : (anchor == "left_shoulder") = false := beq_eq_false_iff_ne.mpr h1
  have b2 : (anchor == "right_shoulder") = false := beq_eq_false_iff_ne.mpr h2
  have b3 : (anchor == "chest") = false := beq_eq_false_iff_ne.mpr h3
  have b4 : (anchor == "lower_left") = false := beq_eq_false_iff_ne.mpr h4
  have b5 : (anchor == "lower_right") = false := beq_eq_false_iff_ne.mpr h5
  have hp : ∀ W H stW stH : Nat,
      Backend.pasteXY W H stW stH anchor none
        = Backend.pasteXY W H stW stH "left_shoulder" none := by
    intro W H stW stH
    simp [Backend.pasteXY, Backend.anchors, List.lookup, b1, b2, b3, b4, b5]
  exact ⟨hp, by simp only [Backend.place_on_base, hp]⟩

theorem claim8_unknown_anchor_witness :
    Backend.place_on_base resampleNN base10 sticker4 (1 / 2) "belly" none
      = Backend.place_on_base resampleNN base10 sticker4 (1 / 2) "left_shoulder" none :=
  (claim8_unknown_anchor resampleNN base10 sticker4 (1 / 2) "belly"
    (by decide) (by decide) (by decide) (by decide) (by decide)).2

/-- C10: the `add_outline_and_shadow` and `place_on_base` functions
duplicated across the two pipeline variants are extensionally equal on
every input (in the source they differ only in whitespace). -/
theorem claim10_variants_equal :
    (∀ (blur : Nat → Mask → Mask) (im : Image) (stroke_px : Nat) (add_shadow : Bool),
      Backend.add_outline_and_shadow blur im stroke_px add_shadow
        = PfpSticker.add_outline_and_shadow blur im stroke_px add_shadow) ∧
    (∀ (resample : Image → Nat → Nat → Image) (base sticker : Image) (scale : ℚ)
      (anchor : String) (xy_pct : Option (ℚ × ℚ)),
      Backend.place_on_base resample base sticker scale anchor xy_pct
        = PfpSticker.place_on_base resample base sticker scale anchor xy_pct) :=
  ⟨fun _ _ _ _ => rfl, fun _ _ _ _ _ _ => rfl⟩

/-- C1 (counterexample): with shadow enabled the canvas is *not* input
plus `4 × stroke_px`.  The code sizes the output canvas from the stroke
layer (`Image.new("RGBA", stroke.size, ...)`) before compositing the
larger shadow into it, so a 2-by-2 cutout with `stroke_px = 1` and
`add_shadow = True` yields a 4-by-4 canvas, not the claimed 6-by-6. -/
theorem claim1_shadow_canvas_counterexample :
    (Backend.add_outline_and_shadow blurId imOpaque2 1 true).width = 4 ∧
    imOpaque2.width + 4 * 1 = 6 ∧
    ¬ (Backend.add_outline_and_shadow blurId imOpaque2 1 true).width
        = imOpaque2.width + 4 * 1 := by decide

/-- Structure of `add_outline_and_shadow` under a dimension-preserving
blur: the output canvas is stroke-sized (input plus `2 × stroke_px`),
with or without shadow, and the cutout is pasted at the centring
offset.  Shared by the claims about the synthesizer. -/
lemma aos_dims_offset (blur : Nat → Mask → Mask)
    (hblur : ∀ r m, (blur r m).width = m.width ∧ (blur r m).height = m.height)
    (im : Image) (stroke_px : Nat) (add_shadow : Bool) :
    (Backend.add_outline_and_shadow blur im stroke_px add_shadow).width
      = im.width + 2 * stroke_px ∧
    (Backend.add_outline_and_shadow blur im stroke_px add_shadow).height
      = im.height + 2 * stroke_px ∧
    Backend.add_outline_and_shadow blur im stroke_px add_shadow
      = (Backend.underlay blur im stroke_px add_shadow).alphaCompositeNN im
          ((im.width + 2 * stroke_px - im.width) / 2)
          ((im.height + 2 * stroke_px - im.height) / 2) := by
  have hsw : (Backend.strokeLayer blur im stroke_px).width = im.width + 2 * stroke_px := by
    simp [Backend.strokeLayer, Backend.strokeMask,
      (hblur 1 ((Image.alphaChannel im).expand stroke_px 255)).1]
  have hsh : (Backend.strokeLayer blur im stroke_px).height = im.height + 2 * stroke_px := by
    simp [Backend.strokeLayer, Backend.strokeMask,
      (hblur 1 ((Image.alphaChannel im).expand stroke_px 255)).2]
  refine ⟨?_, ?_, ?_⟩
  · cases add_shadow <;>
      simp [Backend.add_outline_and_shadow, Backend.underlay, hsw]
  · cases add_shadow <;>
      simp [Backend.add_outline_and_shadow, Backend.underlay, hsh]
  · simp only [Backend.add_outline_and_shadow, hsw, hsh]

/-- C1 (amended): for every cutout, every `stroke_px ≥ 0` and *either*
value of `add_shadow`, the canvas of `add_outline_and_shadow` is the
input plus `2 × stroke_px` in each axis (the shadow is clipped to the
stroke-sized canvas, never enlarging it), and the original cutout is
composited at top-left offset `floor((canvas - input) / 2)` in both
axes. -/
theorem claim1_canvas_dims_amended (blur : Nat → Mask → Mask)
    (hblur : ∀ r m, (blur r m).width = m.width ∧ (blur r m).height = m.height)
    (im : Image) (stroke_px : Nat) (add_shadow : Bool) :
    (Backend.add_outline_and_shadow blur im stroke_px add_shadow).width
      = im.width + 2 * stroke_px ∧
    (Backend.add_outline_and_shadow blur im stroke_px add_shadow).height
      = im.height + 2 * stroke_px ∧
    Backend.add_outline_and_shadow blur im stroke_px add_shadow
      = (Backend.underlay blur im stroke_px add_shadow).alphaCompositeNN im
          ((im.width + 2 * stroke_px - im.width) / 2)
          ((im.height + 2 * stroke_px - im.height) / 2) :=
  aos_dims_offset blur hblur im stroke_px add_shadow

theorem claim1_canvas_dims_amended_witness :
    (Backend.add_outline_and_shadow blurId imOpaque2 1 true).width
      = imOpaque2.width + 2 * 1 ∧
    (Backend.add_outline_and_shadow blurId imOpaque2 1 true).height
      = imOpaque2.height + 2 * 1 ∧
    Backend.add_outline_and_shadow blurId imOpaque2 1 true
      = (Backend.underlay blurId imOpaque2 1 true).alphaCompositeNN imOpaque2
          ((imOpaque2.width + 2 * 1 - imOpaque2.width) / 2)
          ((imOpaque2.height + 2 * 1 - imOpaque2.height) / 2) :=
  claim1_canvas_dims_amended blurId (fun _ _ => ⟨rfl, rfl⟩) imOpaque2 1 true

/-- C6 (counterexample): with `stroke_px = 0` and `add_shadow = false`
the output keeps the input dimensions, but it is *not* pixel-equal to
the input: on a half-transparent pixel the white stroke layer beneath
raises the composited alpha (here from 128 to 192). -/
theorem claim6_zero_stroke_counterexample :
    (Backend.add_outline_and_shadow blurId imHalf1 0 false).width = imHalf1.width ∧
    (Backend.add_outline_and_shadow blurId imHalf1 0 false).height = imHalf1.height ∧
    ((Backend.add_outline_and_shadow blurId imHalf1 0 false).px 0 0).a = 192 ∧
    ¬ (Backend.add_outline_and_shadow blurId imHalf1 0 false).px 0 0
        = imHalf1.px 0 0 := by decide

/-- C6 (amended): with `stroke_px = 0` the stroke layer is still built
(zero-border expansion, then blur) and composited — no special case —
and with `add_shadow = false` the output keeps the input dimensions
and the cutout is pasted at offset (0,0) over the stroke layer.  The
result agrees with the input on every fully opaque pixel; on partially
transparent pixels the white stroke below may show through, so
pixel-equality with the input does not hold in general. -/
theorem claim6_zero_stroke_amended (blur : Nat → Mask → Mask)
    (hblur : ∀ r m, (blur r m).width = m.width ∧ (blur r m).height = m.height)
    (im : Image) :
    (Backend.add_outline_and_shadow blur im 0 false).width = im.width ∧
    (Backend.add_outline_and_shadow blur im 0 false).height = im.height ∧
    Backend.add_outline_and_shadow blur im 0 false
      = (Backend.underlay blur im 0 false).alphaCompositeNN im 0 0 ∧
    ∀ x y : Nat, x < im.width → y < im.height →
      (im.px x y).a = 255 → (im.px x y).r < 256 → (im.px x y).g < 256 →
      (im.px x y).b < 256 →
      (Backend.add_outline_and_shadow blur im 0 false).px x y = im.px x y := by
  obtain ⟨hw, hh, heq⟩ := aos_dims_offset blur hblur im 0 false
  have hz : ∀ n : Nat, (n + 2 * 0 - n) / 2 = 0 := by intro n; simp
  refine ⟨by simpa using hw, by simpa using hh, ?_, ?_⟩
  · rw [heq, hz, hz]
  · intro x y hx hy ha hr hg hb
    rw [heq, hz, hz]
    rw [Image.alphaCompositeNN_px_inside _ _ 0 0 x y
      ⟨Nat.zero_le _, by simpa using hx, Nat.zero_le _, by simpa using hy⟩]
    simp only [Nat.sub_zero]
    cases hpx : im.px x y with
    | mk r0 g0 b0 a0 =>
      rw [hpx] at ha hr hg hb
      simp only at ha hr hg hb
      rw [ha]
      exact compositePixel_opaque _ r0 g0 b0 hr hg hb

theorem claim6_zero_stroke_amended_witness :
    (Backend.add_outline_and_shadow blurId imOpaque1 0 false).width = imOpaque1.width ∧
    (Backend.add_outline_and_shadow blurId imOpaque1 0 false).px 0 0
      = imOpaque1.px 0 0 := by
  have h := claim6_zero_stroke_amended blurId (fun _ _ => ⟨rfl, rfl⟩) imOpaque1
  exact ⟨h.1, h.2.2.2 0 0 (by decide) (by decide) (by decide) (by decide)
    (by decide) (by decide)⟩

/-- Success shape of `place_on_base`: when the sticker has non-zero
width, both resize target dimensions are at least 1 (Pillow `resize`
raises ValueError below that) and the computed paste coordinates are
non-negative, the call returns the base composited with the resized
sticker at those coordinates — with no requirement that the paste box
fits inside the base canvas. -/
lemma place_ok_of (resample : Image → Nat → Nat → Image) (base sticker : Image)
    (scale : ℚ) (anchor : String) (xy_pct : Option (ℚ × ℚ))
    (hw : ¬ sticker.width = 0)
    (htw : 1 ≤ Backend.targetWidthI base.width scale)
    (hth : 1 ≤ Backend.targetHeightI sticker.width sticker.height
      (Backend.targetWidthI base.width scale))
    (hx : 0 ≤ (Backend.pasteXY base.width base.height
      (Backend.placedSticker resample sticker base.width scale).width
      (Backend.placedSticker resample sticker base.width scale).height
      anchor xy_pct).1)
    (hy : 0 ≤ (Backend.pasteXY base.width base.height
      (Backend.placedSticker resample sticker base.width scale).width
      (Backend.placedSticker resample sticker base.width scale).height
      anchor xy_pct).2) :
    Backend.place_on_base resample base sticker scale anchor xy_pct
      = .ok (base.alphaCompositeNN
          (Backend.placedSticker resample sticker base.width scale)
          (Backend.pasteXY base.width base.height
            (Backend.placedSticker resample sticker base.width scale).width
            (Backend.placedSticker resample sticker base.width scale).height
            anchor xy_pct).1.toNat
          (Backend.pasteXY base.width base.height
            (Backend.placedSticker resample sticker base.width scale).width
            (Backend.placedSticker resample sticker base.width scale).height
            anchor xy_pct).2.toNat) := by
  simp only [Backend.placedSticker] at hx hy ⊢
  simp only [Backend.place_on_base]
  rw [if_neg hw, if_neg (by rw [not_or, Int.not_lt, Int.not_lt]; exact ⟨htw, hth⟩),
    if_neg (by rw [not_or, Int.not_lt, Int.not_lt]; exact ⟨hx, hy⟩)]

/-- Error shape of `place_on_base`: a negative computed paste
coordinate hits the Pillow "Destination must be non-negative" ValueError
in `out.alpha_composite(sticker, (x, y))`. -/
lemma place_err_neg_of (resample : Image → Nat → Nat → Image) (base sticker : Image)
    (scale : ℚ) (anchor : String) (xy_pct : Option (ℚ × ℚ))
    (hw : ¬ sticker.width = 0)
    (htw : 1 ≤ Backend.targetWidthI base.width scale)
    (hth : 1 ≤ Backend.targetHeightI sticker.width sticker.height
      (Backend.targetWidthI base.width scale))
    (hxy : (Backend.pasteXY base.width base.height
        (Backend.placedSticker resample sticker base.width scale).width
        (Backend.placedSticker resample sticker base.width scale).height
        anchor xy_pct).1 < 0 ∨
      (Backend.pasteXY base.width base.height
        (Backend.placedSticker resample sticker base.width scale).width
        (Backend.placedSticker resample sticker base.width scale).height
        anchor xy_pct).2 < 0) :
    Backend.place_on_base resample base sticker scale anchor xy_pct
      = .error .valueError := by
  simp only [Backend.placedSticker] at hxy
  simp only [Backend.place_on_base]
  rw [if_neg hw, if_neg (by rw [not_or, Int.not_lt, Int.not_lt]; exact ⟨htw, hth⟩),
    if_pos hxy]

/-- Fidelity check of the resize boundary: a 40-by-1 sticker shrunk
onto a 10-wide base at scale 1/2 gets resize target (5, 0), and the
call raises the Pillow ValueError ("height and width must be > 0")
instead of completing. -/
lemma place_resize_zero_target_err :
    Backend.place_on_base resampleNN base10 sticker40x1 (1 / 2) "chest" none
      = .error .valueError := by
  have etw : Backend.targetWidthI base10.width (1 / 2) = 5 := by
    show pyInt ((10 : ℚ) * (1 / 2)) = 5
    exact pyInt_eq_of (by norm_num) (by norm_num) (by norm_num)
  have eth : Backend.targetHeightI sticker40x1.width sticker40x1.height
      (Backend.targetWidthI base10.width (1 / 2)) = 0 := by
    rw [etw]
    show pyInt ((1 : ℚ) * (((5 : ℤ) : ℚ) / ((40 : ℕ) : ℚ))) = 0
    exact pyInt_eq_of (by norm_num) (by norm_num) (by norm_num)
  simp only [Backend.place_on_base]
  rw [if_neg (by decide : ¬ sticker40x1.width = 0),
    if_pos (Or.inr (by rw [eth]; norm_num))]

/-- C2 (counterexample): a placement whose computed top-left is
negative does *not* complete: the Pillow `alpha_composite` rejects
negative destinations with ValueError.  A 40-by-40 sticker at scale 0.8
on a 100-by-100 base, centred on `xy_pct = (0, 0)`, computes top-left
`(-40, -40)` and the call raises instead of clipping. -/
theorem claim2_negative_dest_counterexample :
    Backend.place_on_base resampleNN base100 sticker40 (4 / 5) "left_shoulder"
      (some (0, 0)) = .error .valueError := by
  have etw : Backend.targetWidthI base100.width (4 / 5) = 80 := by
    show pyInt ((100 : ℚ) * (4 / 5)) = 80
    exact pyInt_eq_of (by norm_num) (by norm_num) (by norm_num)
  have eth : Backend.targetHeightI sticker40.width sticker40.height
      (Backend.targetWidthI base100.width (4 / 5)) = 80 := by
    rw [etw]
    show pyInt ((40 : ℚ) * (((80 : ℤ) : ℚ) / ((40 : ℕ) : ℚ))) = 80
    exact pyInt_eq_of (by norm_num) (by norm_num) (by norm_num)
  have hpw : (Backend.placedSticker resampleNN sticker40 base100.width (4 / 5)).width
      = 80 := by
    simp only [Backend.placedSticker, resampleNN_width, etw]
    rfl
  refine place_err_neg_of resampleNN base100 sticker40 (4 / 5) "left_shoulder"
    (some (0, 0)) (by decide) (by rw [etw]; norm_num) (by rw [eth]; norm_num)
    (Or.inl ?_)
  rw [hpw]
  have e0 : pyInt ((base100.width : ℚ) * 0) = 0 := by
    rw [mul_zero]
    exact pyInt_eq_of (by norm_num) (by norm_num) (by norm_num)
  simp only [Backend.pasteXY, e0]
  norm_num

/-- C2 (amended): whenever both resize target dimensions are at least 1
and the computed top-left paste coordinates are non-negative — with no
requirement that the paste box stays inside the base canvas, so boxes
running past the right/bottom edges are allowed and silently clipped by
the compositor — `place_on_base` completes and returns the base
composited with the resized sticker, and the output dimensions equal
those of the base.  A negative top-left instead raises the Pillow
ValueError (see the counterexample), and a resize target dimension
below 1 (for example a wide flat sticker whose target height truncates
to 0) also raises the Pillow ValueError rather than completing. -/
theorem claim2_clipping_amended (resample : Image → Nat → Nat → Image)
    (base sticker : Image) (scale : ℚ) (anchor : String) (xy_pct : Option (ℚ × ℚ))
    (hw : ¬ sticker.width = 0)
    (htw : 1 ≤ Backend.targetWidthI base.width scale)
    (hth : 1 ≤ Backend.targetHeightI sticker.width sticker.height
      (Backend.targetWidthI base.width scale))
    (hx : 0 ≤ (Backend.pasteXY base.width base.height
      (Backend.placedSticker resample sticker base.width scale).width
      (Backend.placedSticker resample sticker base.width scale).height
      anchor xy_pct).1)
    (hy : 0 ≤ (Backend.pasteXY base.width base.height
      (Backend.placedSticker resample sticker base.width scale).width
      (Backend.placedSticker resample sticker base.width scale).height
      anchor xy_pct).2) :
    Backend.place_on_base resample base sticker scale anchor xy_pct
      = .ok (base.alphaCompositeNN
          (Backend.placedSticker resample sticker base.width scale)
          (Backend.pasteXY base.width base.height
            (Backend.placedSticker resample sticker base.width scale).width
            (Backend.placedSticker resample sticker base.width scale).height
            anchor xy_pct).1.toNat
          (Backend.pasteXY base.width base.height
            (Backend.placedSticker resample sticker base.width scale).width
            (Backend.placedSticker resample sticker base.width scale).height
            anchor xy_pct).2.toNat) ∧
    (base.alphaCompositeNN
        (Backend.placedSticker resample sticker base.width scale)
        (Backend.pasteXY base.width base.height
          (Backend.placedSticker resample sticker base.width scale).width
          (Backend.placedSticker resample sticker base.width scale).height
          anchor xy_pct).1.toNat
        (Backend.pasteXY base.width base.height
          (Backend.placedSticker resample sticker base.width scale).width
          (Backend.placedSticker resample sticker base.width scale).height
          anchor xy_pct).2.toNat).width = base.width ∧
    (base.alphaCompositeNN
        (Backend.placedSticker resample sticker base.width scale)
        (Backend.pasteXY base.width base.height
          (Backend.placedSticker resample sticker base.width scale).width
          (Backend.placedSticker resample sticker base.width scale).height
          anchor xy_pct).1.toNat
        (Backend.pasteXY base.width base.height
          (Backend.placedSticker resample sticker base.width scale).width
          (Backend.placedSticker resample sticker base.width scale).height
          anchor xy_pct).2.toNat).height = base.height :=
  ⟨place_ok_of resample base sticker scale anchor xy_pct hw htw hth hx hy, rfl, rfl⟩

theorem claim2_clipping_amended_witness :
    Backend.place_on_base resampleNN base10 sticker4 (4 / 5) "lower_right" none
      = .ok (base10.alphaCompositeNN
          (Backend.placedSticker resampleNN sticker4 base10.width (4 / 5))
          (Backend.pasteXY base10.width base10.height
            (Backend.placedSticker resampleNN sticker4 base10.width (4 / 5)).width
            (Backend.placedSticker resampleNN sticker4 base10.width (4 / 5)).height
            "lower_right" none).1.toNat
          (Backend.pasteXY base10.width base10.height
            (Backend.placedSticker resampleNN sticker4 base10.width (4 / 5)).width
            (Backend.placedSticker resampleNN sticker4 base10.width (4 / 5)).height
            "lower_right" none).2.toNat) ∧
    (Backend.pasteXY base10.width base10.height
        (Backend.placedSticker resampleNN sticker4 base10.width (4 / 5)).width
        (Backend.placedSticker resampleNN sticker4 base10.width (4 / 5)).height
        "lower_right" none).1
      + ((Backend.placedSticker resampleNN sticker4 base10.width (4 / 5)).width : ℤ)
      > (base10.width : ℤ) := by
  have etw : Backend.targetWidthI base10.width (4 / 5) = 8 := by
    show pyInt ((10 : ℚ) * (4 / 5)) = 8
    exact pyInt_eq_of (by norm_num) (by norm_num) (by norm_num)
  have eth : Backend.targetHeightI sticker4.width sticker4.height
      (Backend.targetWidthI base10.width (4 / 5)) = 8 := by
    rw [etw]
    show pyInt ((4 : ℚ) * (((8 : ℤ) : ℚ) / ((4 : ℕ) : ℚ))) = 8
    exact pyInt_eq_of (by norm_num) (by norm_num) (by norm_num)
  have hpw : (Backend.placedSticker resampleNN sticker4 base10.width (4 / 5)).width
      = 8 := by
    simp only [Backend.placedSticker, resampleNN_width, etw]
    rfl
  have hph : (Backend.placedSticker resampleNN sticker4 base10.width (4 / 5)).height
      = 8 := by
    simp only [Backend.placedSticker, resampleNN_height, eth]
    rfl
  have epx : Backend.pasteXY base10.width base10.height 8 8 "lower_right" none
      = (3, 3) := by
    have hlk : (Backend.anchors base10.width base10.height 8 8).lookup "lower_right"
        = some (Backend.anchorXY base10.width base10.height 8 8
            (75 / 100) (78 / 100)) := rfl
    have e1 : pyInt ((base10.width : ℚ) * (75 / 100)) = 7 := by
      show pyInt ((10 : ℚ) * (75 / 100)) = 7
      exact pyInt_eq_of (by norm_num) (by norm_num) (by norm_num)
    have e2 : pyInt ((base10.height : ℚ) * (78 / 100)) = 7 := by
      show pyInt ((10 : ℚ) * (78 / 100)) = 7
      exact pyInt_eq_of (by norm_num) (by norm_num) (by norm_num)
    simp only [Backend.pasteXY, hlk, Backend.anchorXY, e1, e2]
    norm_num
  refine ⟨(claim2_clipping_amended resampleNN base10 sticker4 (4 / 5) "lower_right"
    none (by decide) (by rw [etw]; norm_num) (by rw [eth]; norm_num)
    (by rw [hpw, hph, epx]; norm_num) (by rw [hpw, hph, epx]; norm_num)).1, ?_⟩
  rw [hpw, hph, epx]
  decide

/-- C7: with a positive scale at most 1 and a non-degenerate sticker,
the resize target used by `place_on_base` has width exactly
`floor(W * scale)`, and the target height differs from the width scaled
by the sticker height-to-width ratio by at most one pixel. -/
theorem claim7_scale_correctness (W stW stH : Nat) (scale : ℚ)
    (h0 : 0 < scale) (h1 : scale ≤ 1) (hst : stW ≠ 0) :
    Backend.targetWidthI W scale = ⌊(W : ℚ) * scale⌋ ∧
    |(Backend.targetHeightI stW stH (Backend.targetWidthI W scale) : ℚ)
        - (Backend.targetWidthI W scale : ℚ) * (stH : ℚ) / (stW : ℚ)| ≤ 1 := by
  have hq : (0 : ℚ) ≤ (W : ℚ) * scale := mul_nonneg (Nat.cast_nonneg W) h0.le
  have e1 : Backend.targetWidthI W scale = ⌊(W : ℚ) * scale⌋ := by
    unfold Backend.targetWidthI
    exact pyInt_of_nonneg hq
  refine ⟨e1, ?_⟩
  have ht0 : (0 : ℤ) ≤ Backend.targetWidthI W scale := by
    rw [e1]; exact Int.floor_nonneg.mpr hq
  have hq2 : (0 : ℚ) ≤ (stH : ℚ) * ((Backend.targetWidthI W scale : ℚ) / (stW : ℚ)) :=
    mul_nonneg (Nat.cast_nonneg stH)
      (div_nonneg (by exact_mod_cast ht0) (Nat.cast_nonneg stW))
  have e2 : Backend.targetHeightI stW stH (Backend.targetWidthI W scale)
      = ⌊(stH : ℚ) * ((Backend.targetWidthI W scale : ℚ) / (stW : ℚ))⌋ := by
    unfold Backend.targetHeightI
    exact pyInt_of_nonneg hq2
  rw [e2]
  have hcomm : (stH : ℚ) * ((Backend.targetWidthI W scale : ℚ) / (stW : ℚ))
      = (Backend.targetWidthI W scale : ℚ) * (stH : ℚ) / (stW : ℚ) := by ring
  rw [hcomm]
  rw [abs_le]
  constructor
  · have := Int.lt_floor_add_one
      ((Backend.targetWidthI W scale : ℚ) * (stH : ℚ) / (stW : ℚ))
    linarith
  · have := Int.floor_le
      ((Backend.targetWidthI W scale : ℚ) * (stH : ℚ) / (stW : ℚ))
    linarith

theorem claim7_scale_correctness_witness :
    Backend.targetWidthI 100 (1 / 4) = ⌊(100 : ℚ) * (1 / 4)⌋ ∧
    |(Backend.targetHeightI 40 40 (Backend.targetWidthI 100 (1 / 4)) : ℚ)
        - (Backend.targetWidthI 100 (1 / 4) : ℚ) * (40 : ℚ) / (40 : ℚ)| ≤ 1 :=
  claim7_scale_correctness 100 40 40 (1 / 4) (by norm_num) (by norm_num) (by decide)

/-- C9: `place_on_base` never mutates the caller base image (the model is a
pure function of a fresh copy), and every pixel of a successful result
outside the pasted sticker box equals the corresponding base pixel; the
result has the dimensions of the base. -/
theorem claim9_base_preserved (resample : Image → Nat → Nat → Image)
    (base sticker : Image) (scale : ℚ) (anchor : String)
    (xy_pct : Option (ℚ × ℚ)) (out : Image)
    (h : Backend.place_on_base resample base sticker scale anchor xy_pct
      = .ok out) :
    out.width = base.width ∧ out.height = base.height ∧
    ∀ x y : Nat,
      ¬((Backend.pasteXY base.width base.height
          (Backend.placedSticker resample sticker base.width scale).width
          (Backend.placedSticker resample sticker base.width scale).height
          anchor xy_pct).1.toNat ≤ x ∧
        x < (Backend.pasteXY base.width base.height
          (Backend.placedSticker resample sticker base.width scale).width
          (Backend.placedSticker resample sticker base.width scale).height
          anchor xy_pct).1.toNat
          + (Backend.placedSticker resample sticker base.width scale).width ∧
        (Backend.pasteXY base.width base.height
          (Backend.placedSticker resample sticker base.width scale).width
          (Backend.placedSticker resample sticker base.width scale).height
          anchor xy_pct).2.toNat ≤ y ∧
        y < (Backend.pasteXY base.width base.height
          (Backend.placedSticker resample sticker base.width scale).width
          (Backend.placedSticker resample sticker base.width scale).height
          anchor xy_pct).2.toNat
          + (Backend.placedSticker resample sticker base.width scale).height) →
      out.px x y = base.px x y := by
  simp only [Backend.place_on_base] at h
  split at h
  · exact absurd h (by simp)
  · split at h
    · exact absurd h (by simp)
    · split at h
      · exact absurd h (by simp)
      · simp only [Except.ok.injEq] at h
        subst h
        refine ⟨rfl, rfl, ?_⟩
        intro x y hreg
        exact Image.alphaCompositeNN_px_outside _ _ _ _ x y
          (by simpa only [Backend.placedSticker] using hreg)

theorem claim9_base_preserved_witness :
    (base10.alphaCompositeNN
        (Backend.placedSticker resampleNN sticker4 base10.width (1 / 2))
        (Backend.pasteXY base10.width base10.height
          (Backend.placedSticker resampleNN sticker4 base10.width (1 / 2)).width
          (Backend.placedSticker resampleNN sticker4 base10.width (1 / 2)).height
          "chest" none).1.toNat
        (Backend.pasteXY base10.width base10.height
          (Backend.placedSticker resampleNN sticker4 base10.width (1 / 2)).width
          (Backend.placedSticker resampleNN sticker4 base10.width (1 / 2)).height
          "chest" none).2.toNat).width = base10.width ∧
    (base10.alphaCompositeNN
        (Backend.placedSticker resampleNN sticker4 base10.width (1 / 2))
        (Backend.pasteXY base10.width base10.height
          (Backend.placedSticker resampleNN sticker4 base10.width (1 / 2)).width
          (Backend.placedSticker resampleNN sticker4 base10.width (1 / 2)).height
          "chest" none).1.toNat
        (Backend.pasteXY base10.width base10.height
          (Backend.placedSticker resampleNN sticker4 base10.width (1 / 2)).width
          (Backend.placedSticker resampleNN sticker4 base10.width (1 / 2)).height
          "chest" none).2.toNat).px 0 0 = base10.px 0 0 := by
  have etw : Backend.targetWidthI base10.width (1 / 2) = 5 := by
    show pyInt ((10 : ℚ) * (1 / 2)) = 5
    exact pyInt_eq_of (by norm_num) (by norm_num) (by norm_num)
  have eth : Backend.targetHeightI sticker4.width sticker4.height
      (Backend.targetWidthI base10.width (1 / 2)) = 5 := by
    rw [etw]
    show pyInt ((4 : ℚ) * (((5 : ℤ) : ℚ) / ((4 : ℕ) : ℚ))) = 5
    exact pyInt_eq_of (by norm_num) (by norm_num) (by norm_num)
  have hpw : (Backend.placedSticker resampleNN sticker4 base10.width (1 / 2)).width
      = 5 := by
    simp only [Backend.placedSticker, resampleNN_width, etw]
    rfl
  have hph : (Backend.placedSticker resampleNN sticker4 base10.width (1 / 2)).height
      = 5 := by
    simp only [Backend.placedSticker, resampleNN_height, eth]
    rfl
  have epx : Backend.pasteXY base10.width base10.height 5 5 "chest" none
      = (3, 5) := by
    have hlk : (Backend.anchors base10.width base10.height 5 5).lookup "chest"
        = some (Backend.anchorXY base10.width base10.height 5 5
            (50 / 100) (70 / 100)) := rfl
    have e1 : pyInt ((base10.width : ℚ) * (50 / 100)) = 5 := by
      show pyInt ((10 : ℚ) * (50 / 100)) = 5
      exact pyInt_eq_of (by norm_num) (by norm_num) (by norm_num)
    have e2 : pyInt ((base10.height : ℚ) * (70 / 100)) = 7 := by
      show pyInt ((10 : ℚ) * (70 / 100)) = 7
      exact pyInt_eq_of (by norm_num) (by norm_num) (by norm_num)
    simp only [Backend.pasteXY, hlk, Backend.anchorXY, e1, e2]
    norm_num
  have hok := place_ok_of resampleNN base10 sticker4 (1 / 2) "chest" none
    (by decide) (by rw [etw]; norm_num) (by rw [eth]; norm_num)
    (by rw [hpw, hph, epx]; norm_num) (by rw [hpw, hph, epx]; norm_num)
  have h9 := claim9_base_preserved resampleNN base10 sticker4 (1 / 2) "chest"
    none _ hok
  exact ⟨h9.1, h9.2.2 0 0 (by rw [hpw, hph, epx]; decide)⟩
